import Mathlib

/-!
Verification development for `sbpl_interface/src/environment_chain3d_moveit.cpp`.

The C++ file is translated into a shallow embedding over exact rational
arithmetic.  External collaborators that the file merely calls (the MoveIt
collision oracle `planning_scene_->checkCollision`, the ROS `angles` library's
`shortest_angular_distance`, and MoveIt's `RobotState::interpolate`) are
supplied as oracle parameters in the `Oracles` structure; everything written
in the C++ file itself is translated definitionally.  The C++ `while (1)`
loop of `attemptShortcut` is embedded with an explicit fuel parameter, so
that non-termination of the source loop is visible as `none` for every fuel.
-/

/-- A continuous joint configuration: one rational per joint
(`std::vector<double>` in the source). -/
abbrev Config := List ℚ

/-- External collaborators of `environment_chain3d_moveit.cpp`:
`collides` is the planning scene's collision check for one robot state,
`sad` is `angles::shortest_angular_distance`, and
`interp` is MoveIt's `RobotState::interpolate` evaluated at a fraction. -/
structure Oracles where
  collides : Config → Bool
  sad : ℚ → ℚ → ℚ
  interp : Config → Config → ℚ → Config

/-- The C++ `INT_MAX` returned by `getJointDistanceIntegerMax` on a length
mismatch. -/
def intMax : ℤ := 2147483647

/-- Translation of the free function `getJointDistanceIntegerMax` (lines
360-383): `INT_MAX` when the two vectors differ in length, otherwise the
maximum over joints of `floor(fabs(angles2[i]-angles1[i])/delta)`, with the
hard-coded continuous-joint hack at indices 4 and 6 using
`angles::shortest_angular_distance`. -/
def getJointDistanceIntegerMax (sad : ℚ → ℚ → ℚ) (angles1 angles2 : Config)
    (delta : ℚ) : ℤ :=
  if angles1.length ≠ angles2.length then intMax
  else
    (List.range angles1.length).foldl
      (fun max_dist i =>
        let dist : ℤ :=
          if i = 4 ∨ i = 6 then
            ⌊|sad (angles1.getD i 0) (angles2.getD i 0)| / delta⌋
          else
            ⌊|angles2.getD i 0 - angles1.getD i 0| / delta⌋
        if max_dist < dist then dist else max_dist)
      0

/-- Translation of the interior-sample loop of `interpolateAndCollisionCheck`
(lines 417-440): `i` runs from `1` while `i < maximum_moves`.  The sample at
`i` is `rs_1->interpolate(rs_2, i/maximum_moves)`.  The collision check is
guarded by `i != maximum_moves-1` exactly as in the source; every surviving
sample is appended to `state_values`.  The fuel argument counts the remaining
iterations, `(maximum_moves - 1).toNat` at the top. -/
def iaccIter (O : Oracles) (angles1 angles2 : Config) (m : ℤ) :
    ℕ → ℤ → List Config → Bool × List Config
  | 0, _, acc => (true, acc)
  | fuel + 1, i, acc =>
    if i ≠ m - 1 ∧ O.collides (O.interp angles1 angles2 ((1 / (m : ℚ)) * (i : ℚ))) = true then
      (false, acc)
    else
      iaccIter O angles1 angles2 m fuel (i + 1)
        (acc ++ [O.interp angles1 angles2 ((1 / (m : ℚ)) * (i : ℚ))])

/-- Translation of `EnvironmentChain3DMoveIt::interpolateAndCollisionCheck`
(lines 385-442): clear `state_values`, collision-check the destination
`angles2` first, compute `maximum_moves` with the helper, then run the
interior-sample loop.  The boolean is the C++ return value and the list is
the `state_values` output parameter. -/
def interpolateAndCollisionCheck (O : Oracles) (delta : ℚ)
    (angles1 angles2 : Config) : Bool × List Config :=
  if O.collides angles2 then (false, [])
  else
    iaccIter O angles1 angles2 (getJointDistanceIntegerMax O.sad angles1 angles2 delta)
      ((getJointDistanceIntegerMax O.sad angles1 angles2 delta) - 1).toNat 1 []

/-- The mutable locals of the `while (1)` loop of `attemptShortcut`
(lines 448-463): the four indices, `last_good_segment_values`, and the
output points accumulated so far. -/
structure ShortcutState where
  last_point_ind : ℕ
  current_point_ind : ℕ
  last_good_start_ind : ℕ
  last_good_end_ind : ℕ
  last_good_segment_values : List Config
  outPoints : List Config
deriving DecidableEq

/-- The valid/invalid branch of one iteration of the `attemptShortcut` loop
(lines 468-503): on a valid check record the new best span and advance the
candidate index; on an invalid check commit the best span (an adjacent copy
or the stored interpolated values) and restart the candidate search from its
end.  `last_good_end_ind` is not modified by the invalid branch, exactly as
in the source. -/
def shortcutBranch (O : Oracles) (delta : ℚ) (ptsIn : List Config)
    (s : ShortcutState) : ShortcutState :=
  if (interpolateAndCollisionCheck O delta (ptsIn.getD s.last_point_ind [])
        (ptsIn.getD s.current_point_ind [])).1 then
    ⟨s.last_point_ind, s.current_point_ind + 1, s.last_point_ind, s.current_point_ind,
     (interpolateAndCollisionCheck O delta (ptsIn.getD s.last_point_ind [])
        (ptsIn.getD s.current_point_ind [])).2,
     s.outPoints⟩
  else
    ⟨s.last_good_end_ind, s.last_good_end_ind + 1, s.last_good_end_ind,
     s.last_good_end_ind, [],
     if s.last_good_end_ind - s.last_good_start_ind = 1 then
       s.outPoints ++ [ptsIn.getD s.last_good_end_ind []]
     else
       s.outPoints ++ s.last_good_segment_values⟩

/-- One full iteration of the `attemptShortcut` loop: the branch above
followed by the end-of-trajectory test (lines 505-519); on exit the pending
segment values are flushed and `traj_in.points.back()` is appended verbatim. -/
def shortcutStep (O : Oracles) (delta : ℚ) (ptsIn : List Config)
    (s : ShortcutState) : ShortcutState ⊕ List Config :=
  if ptsIn.length ≤ (shortcutBranch O delta ptsIn s).current_point_ind then
    Sum.inr
      ((if 0 < (shortcutBranch O delta ptsIn s).last_good_segment_values.length then
          (shortcutBranch O delta ptsIn s).outPoints ++
            (shortcutBranch O delta ptsIn s).last_good_segment_values
        else (shortcutBranch O delta ptsIn s).outPoints)
       ++ [ptsIn.getD (ptsIn.length - 1) []])
  else
    Sum.inl (shortcutBranch O delta ptsIn s)

/-- The `while (1)` loop of `attemptShortcut`, with fuel: `none` means the
loop has not terminated within `fuel` iterations. -/
def shortcutLoop (O : Oracles) (delta : ℚ) (ptsIn : List Config) :
    ℕ → ShortcutState → Option (List Config)
  | 0, _ => none
  | fuel + 1, s =>
    match shortcutStep O delta ptsIn s with
    | Sum.inr out => some out
    | Sum.inl s2 => shortcutLoop O delta ptsIn fuel s2

/-- The loop locals at entry (lines 448-463): indices `0, 1, 0, 1`, no stored
segment, and the output seeded with `traj_in.points.front()`. -/
def initialShortcutState (p0 : Config) : ShortcutState :=
  ⟨0, 1, 0, 1, [], [p0]⟩

/-- Translation of `EnvironmentChain3DMoveIt::attemptShortcut`
(lines 444-523).  A one-waypoint trajectory is returned unchanged.  For the
empty trajectory the source reads `traj_in.points.front()` out of bounds, so
the embedding has no value (`none`).  Otherwise the loop runs on the given
fuel. -/
def attemptShortcut (O : Oracles) (delta : ℚ) (fuel : ℕ) (ptsIn : List Config) :
    Option (List Config) :=
  if ptsIn.length = 1 then some ptsIn
  else
    match ptsIn with
    | [] => none
    | p0 :: rest => shortcutLoop O delta (p0 :: rest) fuel (initialShortcutState p0)

/-- Outcome of `populateTrajectoryFromStateIDSequence`: the C++ returns a
bool, but indexing `state_ID_to_coord_table_` at a negative ID is an
out-of-bounds read with no defined value, recorded as a distinct outcome. -/
inductive PopulateResult where
  | outOfBoundsAccess : PopulateResult
  | rejected : PopulateResult
  | ok : List Config → PopulateResult
deriving DecidableEq

/-- The loop of `populateTrajectoryFromStateIDSequence` (lines 276-281): each
ID is compared with `(int)table.size()-1` and the point's positions are
copied from `table[state_ids[i]]->angles`.  IDs that pass the comparison but
are negative index the vector out of bounds. -/
def populateGo (table : List Config) : List ℤ → List Config → PopulateResult
  | [], acc => PopulateResult.ok acc
  | id :: rest, acc =>
    if (table.length : ℤ) - 1 < id then PopulateResult.rejected
    else if id < 0 then PopulateResult.outOfBoundsAccess
    else populateGo table rest (acc ++ [table.getD id.toNat []])

/-- Translation of
`EnvironmentChain3DMoveIt::populateTrajectoryFromStateIDSequence`
(lines 270-283), with the hash table's `state_ID_to_coord_table_` abstracted
to the list of stored joint-angle vectors. -/
def populateTrajectoryFromStateIDSequence (table : List Config)
    (state_ids : List ℤ) : PopulateResult :=
  populateGo table state_ids []

/-- Truncation toward zero, the behaviour of C++ `static_cast<int>` and of
implicit double-to-int conversion, on rationals. -/
def ratTrunc (q : ℚ) : ℤ := if 0 ≤ q then ⌊q⌋ else ⌈q⌉

/-- The distance-field geometry parameters read by
`continuousXYZtoDiscreteXYZ` (lines 331-340). -/
structure FieldParams where
  field_origin_x : ℚ
  field_origin_y : ℚ
  field_origin_z : ℚ
  field_resolution : ℚ
deriving DecidableEq

/-- Translation of `EnvironmentChain3DMoveIt::continuousXYZtoDiscreteXYZ`
(lines 331-340): subtract the origin, divide by the resolution, truncate to
int.  The function performs no bounds check and always returns `true`. -/
def continuousXYZtoDiscreteXYZ (P : FieldParams) (X Y Z : ℚ) :
    Bool × ℤ × ℤ × ℤ :=
  (true,
   ratTrunc ((X - P.field_origin_x) / P.field_resolution),
   ratTrunc ((Y - P.field_origin_y) / P.field_resolution),
   ratTrunc ((Z - P.field_origin_z) / P.field_resolution))

/-- Translation of `EnvironmentChain3DMoveIt::getEndEffectorCoord`
(lines 313-329), with forward kinematics (`getGlobalLinkTransform`) supplied
as the oracle `fk`. -/
def getEndEffectorCoord (P : FieldParams) (fk : Config → ℚ × ℚ × ℚ)
    (angles : Config) : Bool × ℤ × ℤ × ℤ :=
  continuousXYZtoDiscreteXYZ P (fk angles).1 (fk angles).2.1 (fk angles).2.2

/-- The typed failure reasons assigned by `setupForMotionPlan`. -/
inductive SetupError where
  | START_STATE_IN_COLLISION : SetupError
  | INVALID_ROBOT_STATE : SetupError
  | GOAL_IN_COLLISION : SetupError
  | INVALID_GOAL_CONSTRAINTS : SetupError
deriving DecidableEq

/-- The start-pose fragment of `setupForMotionPlan` (lines 122-128): convert
the start end-effector pose; on `false` report `INVALID_ROBOT_STATE`. -/
def startPoseSetup (P : FieldParams) (fk : Config → ℚ × ℚ × ℚ)
    (start_joint_values : Config) : Except SetupError (ℤ × ℤ × ℤ) :=
  if (getEndEffectorCoord P fk start_joint_values).1 then
    Except.ok (getEndEffectorCoord P fk start_joint_values).2
  else
    Except.error SetupError.INVALID_ROBOT_STATE

/-- The goal-pose fragment of `setupForMotionPlan` (lines 163-168): convert
the goal end-effector pose; on `false` report `INVALID_GOAL_CONSTRAINTS`. -/
def goalPoseSetup (P : FieldParams) (fk : Config → ℚ × ℚ × ℚ)
    (goal_joint_values : Config) : Except SetupError (ℤ × ℤ × ℤ) :=
  if (getEndEffectorCoord P fk goal_joint_values).1 then
    Except.ok (getEndEffectorCoord P fk goal_joint_values).2
  else
    Except.error SetupError.INVALID_GOAL_CONSTRAINTS

/-- Translation of the free function `getEuclideanDistance` (lines 46-49). -/
noncomputable def getEuclideanDistance (x1 y1 z1 x2 y2 z2 : ℝ) : ℝ :=
  Real.sqrt ((x1 - x2) * (x1 - x2) + (y1 - y2) * (y1 - y2) + (z1 - z2) * (z1 - z2))

/-- Truncation toward zero on reals (`static_cast<int>` of a double). -/
noncomputable def realTrunc (x : ℝ) : ℤ := if 0 ≤ x then ⌊x⌋ else ⌈x⌉

/-- The parameters read by `getEndEffectorHeuristic` (lines 342-357). -/
structure HeurParams where
  use_bfs : Bool
  cost_per_cell : ℤ
  field_resolution : ℝ
  cost_per_meter : ℝ

/-- Translation of `EnvironmentChain3DMoveIt::getEndEffectorHeuristic`
(lines 342-357), with the BFS cell-distance query `bfs_->getDistance`
supplied as the oracle `bfsDist` (the `BFS_3D` class lives outside this
source file) and the goal cell `goal_->xyz` as an argument. -/
noncomputable def getEndEffectorHeuristic (P : HeurParams)
    (bfsDist : ℤ → ℤ → ℤ → ℤ) (goal : ℤ × ℤ × ℤ) (x y z : ℤ) : ℤ :=
  if P.use_bfs then bfsDist x y z * P.cost_per_cell
  else
    realTrunc (getEuclideanDistance (x : ℝ) (y : ℝ) (z : ℝ)
      (goal.1 : ℝ) (goal.2.1 : ℝ) (goal.2.2 : ℝ) * P.field_resolution * P.cost_per_meter)

/-- Linear per-joint interpolation, the concrete instantiation of the
`RobotState::interpolate` oracle used for concrete runs. -/
def linInterp (a b : Config) (t : ℚ) : Config :=
  List.zipWith (fun x y => x + t * (y - x)) a b

/-- Oracle set for a world with no obstacles: nothing collides. -/
def freeO : Oracles := ⟨fun _ => false, fun a b => b - a, linInterp⟩

/-- Oracle set for a world where every configuration collides. -/
def blockedO : Oracles := ⟨fun _ => true, fun a b => b - a, linInterp⟩

/-- Oracle set where exactly the configuration `bad` collides. -/
def hitO (bad : Config) : Oracles := ⟨fun c => c == bad, fun a b => b - a, linInterp⟩

attribute [local semireducible] Rat.add Rat.mul Rat.inv Rat.sub

/-! ## Basic lemmas about the motion validity check -/

/-- In a world with no collisions, the interior-sample loop always succeeds. -/
theorem iaccIter_free (O : Oracles) (hc : O.collides = fun _ => false)
    (a1 a2 : Config) (m : ℤ) :
    ∀ (fuel : ℕ) (i : ℤ) (acc : List Config),
      (iaccIter O a1 a2 m fuel i acc).1 = true := by
  intro fuel
  induction fuel with
  | zero => intro i acc; rfl
  | succ k ih =>
    intro i acc
    simp only [iaccIter, hc, Bool.false_eq_true, and_false, if_false]
    exact ih (i + 1) _

/-- In a world with no collisions, `interpolateAndCollisionCheck` reports
every motion valid. -/
theorem iacc_free (O : Oracles) (hc : O.collides = fun _ => false)
    (delta : ℚ) (a1 a2 : Config) :
    (interpolateAndCollisionCheck O delta a1 a2).1 = true := by
  unfold interpolateAndCollisionCheck
  simp only [hc, Bool.false_eq_true, if_false]
  exact iaccIter_free O hc a1 a2 _ _ 1 []

/-! ## Claim C10: the empty trajectory -/

/-- Claim C10: for the empty input trajectory `attemptShortcut` reads
`points.front()` (and would read `points[0]`, `points[1]`) out of bounds, so
in the total embedding it has no value; a one-waypoint trajectory is
returned unchanged, so the shortcutter is well defined from one waypoint
up. -/
theorem C10_empty_input_has_no_value (O : Oracles) (delta : ℚ) (fuel : ℕ) :
    attemptShortcut O delta fuel [] = none ∧
    ∀ c : Config, attemptShortcut O delta fuel [c] = some [c] := by
  exact ⟨rfl, fun c => rfl⟩

/-! ## Claim C3: the skipped last interior sample -/

/-- Claim C3 (code evaluated at the failing input): with one joint, motion
from `[0]` to `[3/10]` at `delta = 1/10`, the step count is `3`; the
interior sample at `i = steps - 1 = 2` is the configuration `[1/5]`, which
the collision oracle reports as colliding, yet `interpolateAndCollisionCheck`
returns valid and hands the colliding sample out in `state_values`: the
guard `i != maximum_moves-1` skips the collision check of the last interior
sample (the code's comment believes that sample is the already-checked
destination, but it is the interpolant at fraction `(steps-1)/steps`). -/
theorem C3_last_interior_sample_unchecked :
    getJointDistanceIntegerMax (hitO [(1:ℚ)/5]).sad [0] [3/10] (1/10) = 3 ∧
    (hitO [(1:ℚ)/5]).collides [(1:ℚ)/5] = true ∧
    (interpolateAndCollisionCheck (hitO [(1:ℚ)/5]) (1/10) [0] [3/10]).1 = true ∧
    (interpolateAndCollisionCheck (hitO [(1:ℚ)/5]) (1/10) [0] [3/10]).2
      = [[1/10], [1/5]] := by
  refine ⟨by decide, by decide, by decide, by decide⟩

/-! ## Claim C4: dimension mismatch -/

/-- Claim C4 (code evaluated at the failing input): for the mismatched pair
`[0]` and `[0, 0]` the helper returns the sentinel `INT_MAX`, but
`interpolateAndCollisionCheck` never tests for it: it runs the interpolation
loop over `INT_MAX - 2` interior samples, and in a collision-free world it
returns the motion VALID instead of rejecting it. -/
theorem C4_length_mismatch_reported_valid :
    getJointDistanceIntegerMax freeO.sad [0] [0, 0] 1 = intMax ∧
    (interpolateAndCollisionCheck freeO 1 [0] [0, 0]).1 = true := by
  exact ⟨by decide, iacc_free freeO rfl 1 [0] [0, 0]⟩


/-! ## Claim C2: the loop can fail to make progress -/

/-- The loop state reached after the first iteration on a three-waypoint
trajectory whose checks all fail: both committed indices equal `1`, the
candidate index is `2`, and no segment values are stored. -/
def stuckState : ShortcutState := ⟨1, 2, 1, 1, [], [[0], [1]]⟩

/-- With every configuration in collision, the loop body maps `stuckState`
to itself: the invalid branch commits an empty span (`last_good_end_ind -
last_good_start_ind = 0`), appends nothing, and resets every index to the
value it already has. -/
theorem shortcutStep_stuck :
    shortcutStep blockedO 1 [[0], [1], [2]] stuckState = Sum.inl stuckState := by
  decide

/-- From `stuckState` the loop never terminates, whatever the fuel. -/
theorem shortcutLoop_stuck :
    ∀ fuel : ℕ, shortcutLoop blockedO 1 [[0], [1], [2]] fuel stuckState = none := by
  intro fuel
  induction fuel with
  | zero => rfl
  | succ n ih =>
    show (match shortcutStep blockedO 1 [[0], [1], [2]] stuckState with
      | Sum.inr out => some out
      | Sum.inl s2 => shortcutLoop blockedO 1 [[0], [1], [2]] n s2) = none
    rw [shortcutStep_stuck]
    exact ih

/-- Claim C2 (code evaluated at the failing input): on the three-waypoint
trajectory `[[0], [1], [2]]` with every configuration in collision (so the
check of the first adjacent pair fails and the following adjacent check
fails too), `attemptShortcut` never terminates: after committing the first
trivial span it reaches a loop state that steps to itself without advancing
any index, so the embedded loop returns `none` for every fuel bound. -/
theorem C2_shortcutter_loops_forever :
    ∀ fuel : ℕ, attemptShortcut blockedO 1 fuel [[0], [1], [2]] = none := by
  intro fuel
  show shortcutLoop blockedO 1 [[0], [1], [2]] fuel (initialShortcutState [0]) = none
  cases fuel with
  | zero => rfl
  | succ n =>
    have h0 : shortcutStep blockedO 1 [[0], [1], [2]] (initialShortcutState [0])
        = Sum.inl stuckState := by decide
    show (match shortcutStep blockedO 1 [[0], [1], [2]] (initialShortcutState [0]) with
      | Sum.inr out => some out
      | Sum.inl s2 => shortcutLoop blockedO 1 [[0], [1], [2]] n s2) = none
    rw [h0]
    exact shortcutLoop_stuck n

/-! ## Claim C1: an invalid adjacent input pair survives into the output -/

/-- Holds when every consecutive pair of waypoints of the list passes the
motion validity check `interpolateAndCollisionCheck`. -/
def pairwiseValid (O : Oracles) (delta : ℚ) : List Config → Bool
  | a :: b :: rest =>
    (interpolateAndCollisionCheck O delta a b).1 && pairwiseValid O delta (b :: rest)
  | _ => true

/-- Claim C1 (counterexample): on the two-waypoint trajectory `[[0], [1]]`
whose single adjacent pair is invalid (the destination `[1]` is in
collision), the shortcutter terminates with output `[[0], [1], [1]]`, and
its very first consecutive pair fails the motion validity check: the output
does NOT pass `isMotionValid` pairwise, refuting the claim precisely in the
invalid-first-pair case it includes. -/
theorem C1_output_contains_invalid_pair :
    attemptShortcut (hitO [(1:ℚ)]) 1 1 [[0], [1]] = some [[0], [1], [1]] ∧
    pairwiseValid (hitO [(1:ℚ)]) 1 [[0], [1], [1]] = false := by
  constructor
  · decide
  · decide

/-- In a world with no collisions, every list is pairwise valid. -/
theorem pairwiseValid_free (O : Oracles) (hc : O.collides = fun _ => false)
    (delta : ℚ) : ∀ l : List Config, pairwiseValid O delta l = true
  | [] => rfl
  | [_] => rfl
  | a :: b :: rest => by
    simp only [pairwiseValid, iacc_free O hc delta a b, Bool.true_and]
    exact pairwiseValid_free O hc delta (b :: rest)

/-- Claim C1 (amended): if the collision oracle reports every configuration
collision-free, then every consecutive pair of waypoints of any trajectory
the shortcutter produces passes the motion validity check.  The unrestricted
claim is refuted by `C1_output_contains_invalid_pair`: when an adjacent
input pair is itself invalid the shortcutter copies it into the output
unchanged, so the output cannot be pairwise valid. -/
theorem C1_trivial_world_output_pairs_valid (O : Oracles) (delta : ℚ)
    (fuel : ℕ) (ptsIn out : List Config) (hc : O.collides = fun _ => false)
    (h : attemptShortcut O delta fuel ptsIn = some out) :
    pairwiseValid O delta out = true :=
  pairwiseValid_free O hc delta out

/-- Witness for `C1_trivial_world_output_pairs_valid` at the concrete
collision-free run `attemptShortcut freeO 1 1 [[0], [1]] = some [[0], [1]]`. -/
theorem C1_trivial_world_output_pairs_valid_witness :
    (freeO.collides = fun _ => false) ∧
    attemptShortcut freeO 1 1 [[0], [1]] = some [[0], [1]] ∧
    pairwiseValid freeO 1 [[0], [1]] = true :=
  ⟨rfl, by decide,
   C1_trivial_world_output_pairs_valid freeO 1 1 [[0], [1]] [[0], [1]] rfl (by decide)⟩

/-! ## Claim C5: the trivially-valid world does not collapse to two points -/

/-- Claim C5 (counterexample): with no obstacles at all (every motion check
succeeds) the shortcutter applied to the two-waypoint trajectory
`[[0], [3/10]]` at `delta = 1/10` outputs FOUR waypoints — the two inputs
plus the two interior interpolated samples flushed from the final span — not
exactly the first and last waypoint. -/
theorem C5_trivial_world_output_has_four_points :
    attemptShortcut freeO (1/10) 2 [[0], [3/10]]
      = some [[0], [1/10], [1/5], [3/10]] ∧
    attemptShortcut freeO (1/10) 2 [[0], [3/10]] ≠ some [[0], [3/10]] := by
  constructor
  · decide
  · decide

/-- Unfolding helper: a loop step that continues. -/
theorem shortcutLoop_succ_inl (O : Oracles) (delta : ℚ) (ptsIn : List Config)
    (n : ℕ) (s s2 : ShortcutState)
    (h : shortcutStep O delta ptsIn s = Sum.inl s2) :
    shortcutLoop O delta ptsIn (n + 1) s = shortcutLoop O delta ptsIn n s2 := by
  show (match shortcutStep O delta ptsIn s with
    | Sum.inr out => some out
    | Sum.inl s2 => shortcutLoop O delta ptsIn n s2) = _
  rw [h]

/-- Unfolding helper: a loop step that exits. -/
theorem shortcutLoop_succ_inr (O : Oracles) (delta : ℚ) (ptsIn : List Config)
    (n : ℕ) (s : ShortcutState) (out : List Config)
    (h : shortcutStep O delta ptsIn s = Sum.inr out) :
    shortcutLoop O delta ptsIn (n + 1) s = some out := by
  show (match shortcutStep O delta ptsIn s with
    | Sum.inr out => some out
    | Sum.inl s2 => shortcutLoop O delta ptsIn n s2) = _
  rw [h]

/-- The exit-time flush appends exactly the stored segment values: pushing
each element of a non-empty list equals appending it, and pushing nothing
equals appending the empty list. -/
theorem flush_eq (out l : List Config) :
    (if 0 < l.length then out ++ l else out) = out ++ l := by
  cases l with
  | nil => simp
  | cons a t => simp

/-- On a valid check, `shortcutBranch` records the span and advances the
candidate index. -/
theorem shortcutBranch_valid (O : Oracles) (delta : ℚ) (ptsIn : List Config)
    (s : ShortcutState)
    (h : (interpolateAndCollisionCheck O delta (ptsIn.getD s.last_point_ind [])
            (ptsIn.getD s.current_point_ind [])).1 = true) :
    shortcutBranch O delta ptsIn s =
      ⟨s.last_point_ind, s.current_point_ind + 1, s.last_point_ind,
       s.current_point_ind,
       (interpolateAndCollisionCheck O delta (ptsIn.getD s.last_point_ind [])
          (ptsIn.getD s.current_point_ind [])).2,
       s.outPoints⟩ := by
  unfold shortcutBranch
  rw [if_pos h]

/-- In a world with no collisions the loop always takes the valid branch:
started anywhere with committed index `0` and candidate index `cp` it runs
to the end of the trajectory and returns the accumulated output followed by
the interpolated interior samples of the span from waypoint `0` to the last
waypoint, followed by the last waypoint. -/
theorem shortcutLoop_free (O : Oracles) (hc : O.collides = fun _ => false)
    (delta : ℚ) (ptsIn : List Config) :
    ∀ (fuel cp lge : ℕ) (seg out : List Config),
      1 ≤ cp → cp + 1 ≤ ptsIn.length → ptsIn.length - cp ≤ fuel →
      shortcutLoop O delta ptsIn fuel ⟨0, cp, 0, lge, seg, out⟩ =
        some (out ++
          ((interpolateAndCollisionCheck O delta (ptsIn.getD 0 [])
              (ptsIn.getD (ptsIn.length - 1) [])).2
            ++ [ptsIn.getD (ptsIn.length - 1) []])) := by
  intro fuel
  induction fuel with
  | zero =>
    intro cp lge seg out h1 h2 h3
    exact absurd h2 (by omega)
  | succ n ih =>
    intro cp lge seg out h1 h2 h3
    have hvalid : (interpolateAndCollisionCheck O delta (ptsIn.getD 0 [])
        (ptsIn.getD cp [])).1 = true := iacc_free O hc delta _ _
    have hb : shortcutBranch O delta ptsIn ⟨0, cp, 0, lge, seg, out⟩ =
        ⟨0, cp + 1, 0, cp,
         (interpolateAndCollisionCheck O delta (ptsIn.getD 0 [])
            (ptsIn.getD cp [])).2, out⟩ :=
      shortcutBranch_valid O delta ptsIn ⟨0, cp, 0, lge, seg, out⟩ hvalid
    by_cases hend : ptsIn.length ≤ cp + 1
    · have hcp : cp = ptsIn.length - 1 := by omega
      have hstep : shortcutStep O delta ptsIn ⟨0, cp, 0, lge, seg, out⟩ =
          Sum.inr (out ++
            ((interpolateAndCollisionCheck O delta (ptsIn.getD 0 [])
                (ptsIn.getD (ptsIn.length - 1) [])).2
              ++ [ptsIn.getD (ptsIn.length - 1) []])) := by
        unfold shortcutStep
        rw [hb]
        rw [if_pos hend]
        rw [flush_eq]
        rw [hcp]
        rw [List.append_assoc]
      rw [shortcutLoop_succ_inr O delta ptsIn n _ _ hstep]
    · have hstep : shortcutStep O delta ptsIn ⟨0, cp, 0, lge, seg, out⟩ =
          Sum.inl ⟨0, cp + 1, 0, cp,
            (interpolateAndCollisionCheck O delta (ptsIn.getD 0 [])
               (ptsIn.getD cp [])).2, out⟩ := by
        unfold shortcutStep
        rw [hb]
        rw [if_neg hend]
      rw [shortcutLoop_succ_inl O delta ptsIn n _ _ hstep]
      exact ih (cp + 1) cp _ out (by omega) (by omega) (by omega)

/-- Claim C5 (amended): in the trivially valid world (the collision oracle
reports everything collision-free) the shortcutter keeps no interior input
waypoint: with enough fuel its output is exactly the first input waypoint,
then the interior interpolated samples `interpolateAndCollisionCheck`
produces for the single span from the first to the last waypoint, then the
last input waypoint.  The original claim's "exactly two waypoints" is
refuted by `C5_trivial_world_output_has_four_points`: the flushed span
samples stay in the output, so it has two waypoints only when that span
needs at most one interpolation step. -/
theorem C5_trivial_world_output_shape (O : Oracles) (delta : ℚ) (fuel : ℕ)
    (ptsIn : List Config) (hc : O.collides = fun _ => false)
    (hlen : 2 ≤ ptsIn.length) (hfuel : ptsIn.length - 1 ≤ fuel) :
    attemptShortcut O delta fuel ptsIn =
      some (ptsIn.getD 0 [] ::
        ((interpolateAndCollisionCheck O delta (ptsIn.getD 0 [])
            (ptsIn.getD (ptsIn.length - 1) [])).2
          ++ [ptsIn.getD (ptsIn.length - 1) []])) := by
  cases ptsIn with
  | nil => exact absurd hlen (by simp)
  | cons p0 rest =>
    unfold attemptShortcut
    rw [if_neg (show ¬ (p0 :: rest).length = 1 by
      simp only [List.length_cons] at hlen ⊢; omega)]
    show shortcutLoop O delta (p0 :: rest) fuel ⟨0, 1, 0, 1, [], [p0]⟩ = _
    rw [shortcutLoop_free O hc delta (p0 :: rest) fuel 1 1 [] [p0]
      (le_refl 1) hlen hfuel]
    rfl

/-- Witness for `C5_trivial_world_output_shape` at the concrete
collision-free run on `[[0], [3/10]]` with `delta = 1/10`. -/
theorem C5_trivial_world_output_shape_witness :
    (freeO.collides = fun _ => false) ∧
    2 ≤ ([[0], [3/10]] : List Config).length ∧
    attemptShortcut freeO (1/10) 2 [[0], [3/10]] =
      some (([[0], [3/10]] : List Config).getD 0 [] ::
        ((interpolateAndCollisionCheck freeO (1/10)
            (([[0], [3/10]] : List Config).getD 0 [])
            (([[0], [3/10]] : List Config).getD
              (([[0], [3/10]] : List Config).length - 1) [])).2
          ++ [([[0], [3/10]] : List Config).getD
              (([[0], [3/10]] : List Config).length - 1) []])) :=
  ⟨rfl, by decide,
   C5_trivial_world_output_shape freeO (1/10) 2 [[0], [3/10]] rfl (by decide) (by decide)⟩

/-- The last element of a non-empty list, through `getD` at index
`length - 1`. -/
theorem getLast?_eq_getD (l : List Config) (h : l ≠ []) :
    l.getLast? = some (l.getD (l.length - 1) []) := by
  induction l with
  | nil => exact absurd rfl h
  | cons a t ih =>
    cases t with
    | nil => rfl
    | cons b t2 =>
      rw [List.getLast?_cons_cons]
      rw [ih (by simp)]
      rfl

/-- Both branches of the loop body only ever append to the output points. -/
theorem shortcutBranch_outPoints_extends (O : Oracles) (delta : ℚ)
    (ptsIn : List Config) (s : ShortcutState) :
    ∃ t, (shortcutBranch O delta ptsIn s).outPoints = s.outPoints ++ t := by
  unfold shortcutBranch
  by_cases hv : (interpolateAndCollisionCheck O delta
      (ptsIn.getD s.last_point_ind []) (ptsIn.getD s.current_point_ind [])).1 = true
  · rw [if_pos hv]
    exact ⟨[], by simp⟩
  · rw [if_neg hv]
    by_cases hd : s.last_good_end_ind - s.last_good_start_ind = 1
    · rw [if_pos hd]
      exact ⟨_, rfl⟩
    · rw [if_neg hd]
      exact ⟨_, rfl⟩

/-- A continuing loop step produces exactly the branch state. -/
theorem shortcutStep_inl_eq (O : Oracles) (delta : ℚ) (ptsIn : List Config)
    (s s2 : ShortcutState) (h : shortcutStep O delta ptsIn s = Sum.inl s2) :
    s2 = shortcutBranch O delta ptsIn s := by
  unfold shortcutStep at h
  by_cases hend : ptsIn.length ≤ (shortcutBranch O delta ptsIn s).current_point_ind
  · rw [if_pos hend] at h
    exact absurd h (by simp)
  · rw [if_neg hend] at h
    exact (Sum.inl.injEq _ _ ▸ h).symm

/-- An exiting loop step produces the flushed output of the branch state,
with the input's final waypoint appended. -/
theorem shortcutStep_inr_eq (O : Oracles) (delta : ℚ) (ptsIn : List Config)
    (s : ShortcutState) (out : List Config)
    (h : shortcutStep O delta ptsIn s = Sum.inr out) :
    out = (shortcutBranch O delta ptsIn s).outPoints ++
      ((shortcutBranch O delta ptsIn s).last_good_segment_values
        ++ [ptsIn.getD (ptsIn.length - 1) []]) := by
  unfold shortcutStep at h
  by_cases hend : ptsIn.length ≤ (shortcutBranch O delta ptsIn s).current_point_ind
  · rw [if_pos hend] at h
    rw [flush_eq] at h
    rw [List.append_assoc] at h
    exact (Sum.inr.injEq _ _ ▸ h).symm
  · rw [if_neg hend] at h
    exact absurd h (by simp)

/-- Whenever the loop terminates, its result extends the output accumulated
so far and ends with the input's final waypoint. -/
theorem shortcutLoop_shape (O : Oracles) (delta : ℚ) (ptsIn : List Config) :
    ∀ (fuel : ℕ) (s : ShortcutState) (out : List Config),
      shortcutLoop O delta ptsIn fuel s = some out →
      (∃ t, out = s.outPoints ++ t) ∧
      out.getLast? = some (ptsIn.getD (ptsIn.length - 1) []) := by
  intro fuel
  induction fuel with
  | zero => intro s out h; exact absurd h (by simp [shortcutLoop])
  | succ n ih =>
    intro s out h
    cases hstep : shortcutStep O delta ptsIn s with
    | inr o =>
      rw [shortcutLoop_succ_inr O delta ptsIn n s o hstep] at h
      have ho := shortcutStep_inr_eq O delta ptsIn s o hstep
      obtain ⟨t0, ht0⟩ := shortcutBranch_outPoints_extends O delta ptsIn s
      cases h
      constructor
      · exact ⟨_, by rw [ho, ht0, List.append_assoc]⟩
      · rw [ho, ← List.append_assoc]
        exact List.getLast?_concat _
    | inl s2 =>
      rw [shortcutLoop_succ_inl O delta ptsIn n s s2 hstep] at h
      obtain ⟨⟨t, ht⟩, hlast⟩ := ih s2 out h
      obtain ⟨t0, ht0⟩ := shortcutBranch_outPoints_extends O delta ptsIn s
      refine ⟨⟨t0 ++ t, ?_⟩, hlast⟩
      rw [ht, shortcutStep_inl_eq O delta ptsIn s s2 hstep, ht0, List.append_assoc]

/-- Claim C6: for every non-empty input trajectory and every terminating run
of the shortcutter, the output's first waypoint is the input's first
waypoint and the output's last waypoint is the input's last waypoint (the
final waypoint is appended verbatim at loop exit, never replaced by an
interpolated value). -/
theorem C6_first_last_preserved (O : Oracles) (delta : ℚ) (fuel : ℕ)
    (ptsIn out : List Config) (hne : ptsIn ≠ [])
    (h : attemptShortcut O delta fuel ptsIn = some out) :
    out.head? = ptsIn.head? ∧ out.getLast? = ptsIn.getLast? := by
  by_cases h1 : ptsIn.length = 1
  · unfold attemptShortcut at h
    rw [if_pos h1] at h
    cases h
    exact ⟨rfl, rfl⟩
  · cases ptsIn with
    | nil => exact absurd rfl hne
    | cons p0 rest =>
      unfold attemptShortcut at h
      rw [if_neg h1] at h
      obtain ⟨⟨t, ht⟩, hlast⟩ :=
        shortcutLoop_shape O delta (p0 :: rest) fuel (initialShortcutState p0) out h
      constructor
      · rw [ht]; rfl
      · rw [hlast, getLast?_eq_getD (p0 :: rest) (by simp)]

/-- Witness for `C6_first_last_preserved` at the concrete collision-free run
`attemptShortcut freeO 1 1 [[0], [1]] = some [[0], [1]]`. -/
theorem C6_first_last_preserved_witness :
    ([[0], [(1:ℚ)]] : List Config) ≠ [] ∧
    (([[0], [(1:ℚ)]] : List Config).head? = ([[0], [(1:ℚ)]] : List Config).head? ∧
     ([[0], [(1:ℚ)]] : List Config).getLast? = ([[0], [(1:ℚ)]] : List Config).getLast?) :=
  ⟨by decide,
   C6_first_last_preserved freeO 1 1 [[0], [1]] [[0], [1]] (by decide) (by decide)⟩

/-! ## Claim C7: trajectory reconstruction and negative IDs -/

/-- Claim C7 (code evaluated at the failing input): with one assigned state,
the never-assigned ID `-1` passes the guard `state_ids[i] > (int)size-1`
(since `-1 > 0` is false) and the code then reads the hash table at index
`-1`, an out-of-bounds access with no value, instead of returning the
out-of-range failure; an ID above the highest assigned one is correctly
rejected, and an all-assigned sequence correctly copies the stored angles. -/
theorem C7_negative_id_unchecked_access :
    populateTrajectoryFromStateIDSequence [[0]] [-1]
      = PopulateResult.outOfBoundsAccess ∧
    populateTrajectoryFromStateIDSequence [[0]] [-1] ≠ PopulateResult.rejected ∧
    populateTrajectoryFromStateIDSequence [[0]] [2] = PopulateResult.rejected ∧
    populateTrajectoryFromStateIDSequence [[0], [1]] [1, 0, 1]
      = PopulateResult.ok [[1], [0], [1]] := by
  refine ⟨by decide, by decide, by decide, by decide⟩

/-! ## Claim C9: out-of-range poses are never rejected -/

/-- Claim C9 (counterexample): with a `10 x 10 x 10` grid of resolution
`1/10` based at the origin (cells `0..9` per axis), the far out-of-range
pose `(100, 100, 100)` discretizes to cell `(1000, 1000, 1000)` and the
conversion nevertheless returns `true`, so the start-pose setup succeeds
instead of failing with the invalid-robot-state reason. -/
theorem C9_out_of_range_pose_accepted :
    getEndEffectorCoord ⟨0, 0, 0, 1/10⟩ (fun _ => (100, 100, 100)) []
      = (true, 1000, 1000, 1000) ∧
    startPoseSetup ⟨0, 0, 0, 1/10⟩ (fun _ => (100, 100, 100)) []
      = Except.ok (1000, 1000, 1000) := by
  refine ⟨by decide, ?_⟩
  unfold startPoseSetup
  rw [if_pos (by decide)]
  have h : (getEndEffectorCoord ⟨0, 0, 0, 1/10⟩ (fun _ => (100, 100, 100)) []).2
      = (1000, 1000, 1000) := by decide
  rw [h]

/-- Claim C9 (amended): `continuousXYZtoDiscreteXYZ` performs no bounds
check and returns `true` for every pose, so `getEndEffectorCoord` never
returns `false` and the `INVALID_ROBOT_STATE` / `INVALID_GOAL_CONSTRAINTS`
branches of `setupForMotionPlan` are unreachable through the end-effector
conversion: out-of-range poses proceed, producing out-of-range cell
indices (consistent with the spec's statement that no bounds checking is
performed at this layer). -/
theorem C9_conversion_never_fails (P : FieldParams) (fk : Config → ℚ × ℚ × ℚ)
    (angles : Config) :
    (getEndEffectorCoord P fk angles).1 = true ∧
    (∀ e : SetupError, startPoseSetup P fk angles ≠ Except.error e) ∧
    (∀ e : SetupError, goalPoseSetup P fk angles ≠ Except.error e) := by
  refine ⟨rfl, fun e h => ?_, fun e h => ?_⟩
  · simp [startPoseSetup, getEndEffectorCoord, continuousXYZtoDiscreteXYZ] at h
  · simp [goalPoseSetup, getEndEffectorCoord, continuousXYZtoDiscreteXYZ] at h

/-! ## Claim C8: the end-effector heuristic -/

/-- Truncation toward zero of a non-negative real is non-negative. -/
theorem realTrunc_nonneg (x : ℝ) (h : 0 ≤ x) : 0 ≤ realTrunc x := by
  unfold realTrunc
  rw [if_pos h]
  exact Int.floor_nonneg.mpr h

/-- The Euclidean distance is non-negative. -/
theorem getEuclideanDistance_nonneg (x1 y1 z1 x2 y2 z2 : ℝ) :
    0 ≤ getEuclideanDistance x1 y1 z1 x2 y2 z2 :=
  Real.sqrt_nonneg _

/-- Claim C8 (counterexample): in Euclidean fallback mode with resolution
`1/10` and `cost_per_meter = 5`, the cell `(0, 0, 1)` adjacent to the goal
cell `(0, 0, 0)` has straight-line cell distance `1`, so the heuristic is
`trunc(1 * 1/10 * 5) = trunc(1/2) = 0` at a cell that is NOT the goal cell:
the heuristic is not zero only at the goal. -/
theorem C8_euclidean_zero_off_goal :
    getEndEffectorHeuristic ⟨false, 0, 1/10, 5⟩ (fun _ _ _ => 0) (0, 0, 0) 0 0 1 = 0 ∧
    ((0:ℤ), (0:ℤ), (1:ℤ)) ≠ ((0:ℤ), (0:ℤ), (0:ℤ)) := by
  constructor
  · show realTrunc (getEuclideanDistance ((0:ℤ):ℝ) ((0:ℤ):ℝ) ((1:ℤ):ℝ)
        (((0:ℤ),(0:ℤ),(0:ℤ)).1 : ℝ) (((0:ℤ),(0:ℤ),(0:ℤ)).2.1 : ℝ)
        (((0:ℤ),(0:ℤ),(0:ℤ)).2.2 : ℝ) * (1/10) * 5) = 0
    have hd : getEuclideanDistance ((0:ℤ):ℝ) ((0:ℤ):ℝ) ((1:ℤ):ℝ)
        (((0:ℤ),(0:ℤ),(0:ℤ)).1 : ℝ) (((0:ℤ),(0:ℤ),(0:ℤ)).2.1 : ℝ)
        (((0:ℤ),(0:ℤ),(0:ℤ)).2.2 : ℝ) = 1 := by
      unfold getEuclideanDistance
      norm_num
    rw [hd]
    unfold realTrunc
    rw [if_pos (by norm_num)]
    norm_num
  · decide

/-- Claim C8 (amended): for non-negative cost parameters the heuristic is
non-negative; in BFS mode it is exactly the BFS cell distance times
`cost_per_cell`, and when `cost_per_cell` is positive it is zero exactly at
the cells whose BFS distance is zero (the goal cell); in Euclidean fallback
mode it is exactly the straight-line cell distance scaled by the grid
resolution and `cost_per_meter`, truncated to an integer — which, by
`C8_euclidean_zero_off_goal`, can be zero at a non-goal cell, so the
original "zero only at the goal" fails in that mode. -/
theorem C8_heuristic_properties (P : HeurParams) (bfsDist : ℤ → ℤ → ℤ → ℤ)
    (goal : ℤ × ℤ × ℤ) (x y z : ℤ)
    (hcpc : 0 ≤ P.cost_per_cell) (hres : 0 ≤ P.field_resolution)
    (hcpm : 0 ≤ P.cost_per_meter) (hbfs : 0 ≤ bfsDist x y z) :
    0 ≤ getEndEffectorHeuristic P bfsDist goal x y z ∧
    (P.use_bfs = true → getEndEffectorHeuristic P bfsDist goal x y z
        = bfsDist x y z * P.cost_per_cell) ∧
    (P.use_bfs = false → getEndEffectorHeuristic P bfsDist goal x y z
        = realTrunc (getEuclideanDistance (x : ℝ) (y : ℝ) (z : ℝ)
            (goal.1 : ℝ) (goal.2.1 : ℝ) (goal.2.2 : ℝ)
            * P.field_resolution * P.cost_per_meter)) ∧
    (P.use_bfs = true → 0 < P.cost_per_cell →
      ((bfsDist x y z = 0) ↔ (x, y, z) = goal) →
      ((getEndEffectorHeuristic P bfsDist goal x y z = 0) ↔ (x, y, z) = goal)) := by
  by_cases hb : P.use_bfs
  · have he : getEndEffectorHeuristic P bfsDist goal x y z
        = bfsDist x y z * P.cost_per_cell := by
      unfold getEndEffectorHeuristic
      rw [if_pos hb]
    refine ⟨?_, fun _ => he, fun hfalse => absurd hb (by rw [hfalse]; simp), ?_⟩
    · rw [he]; exact mul_nonneg hbfs hcpc
    · intro _ hpos hzero
      rw [he]
      constructor
      · intro hmul
        rcases mul_eq_zero.mp hmul with hd0 | hc0
        · exact hzero.mp hd0
        · exact absurd hc0 (by omega)
      · intro hgoal
        rw [hzero.mpr hgoal, zero_mul]
  · have hb2 : P.use_bfs = false := by
      cases hu : P.use_bfs
      · rfl
      · exact absurd hu hb
    have he : getEndEffectorHeuristic P bfsDist goal x y z
        = realTrunc (getEuclideanDistance (x : ℝ) (y : ℝ) (z : ℝ)
            (goal.1 : ℝ) (goal.2.1 : ℝ) (goal.2.2 : ℝ)
            * P.field_resolution * P.cost_per_meter) := by
      unfold getEndEffectorHeuristic
      rw [if_neg hb]
    refine ⟨?_, fun htrue => absurd htrue hb, fun _ => he,
      fun htrue => absurd htrue hb⟩
    rw [he]
    exact realTrunc_nonneg _
      (mul_nonneg (mul_nonneg (getEuclideanDistance_nonneg _ _ _ _ _ _) hres) hcpm)

/-- Witness for `C8_heuristic_properties` in BFS mode with unit cell cost,
a constant BFS distance `2`, and the query cell `(1, 2, 3)`. -/
theorem C8_heuristic_properties_witness :
    (0 ≤ (1:ℤ)) ∧
    (0 ≤ getEndEffectorHeuristic ⟨true, 1, 0, 0⟩ (fun _ _ _ => 2) (0, 0, 0) 1 2 3 ∧
     ((⟨true, 1, 0, 0⟩ : HeurParams).use_bfs = true →
       getEndEffectorHeuristic ⟨true, 1, 0, 0⟩ (fun _ _ _ => 2) (0, 0, 0) 1 2 3
         = (fun _ _ _ => (2:ℤ)) 1 2 3 * (⟨true, 1, 0, 0⟩ : HeurParams).cost_per_cell) ∧
     ((⟨true, 1, 0, 0⟩ : HeurParams).use_bfs = false →
       getEndEffectorHeuristic ⟨true, 1, 0, 0⟩ (fun _ _ _ => 2) (0, 0, 0) 1 2 3
         = realTrunc (getEuclideanDistance ((1:ℤ) : ℝ) ((2:ℤ) : ℝ) ((3:ℤ) : ℝ)
             ((((0:ℤ), (0:ℤ), (0:ℤ)).1 : ℤ) : ℝ) ((((0:ℤ), (0:ℤ), (0:ℤ)).2.1 : ℤ) : ℝ)
             ((((0:ℤ), (0:ℤ), (0:ℤ)).2.2 : ℤ) : ℝ)
             * (⟨true, 1, 0, 0⟩ : HeurParams).field_resolution
             * (⟨true, 1, 0, 0⟩ : HeurParams).cost_per_meter)) ∧
     ((⟨true, 1, 0, 0⟩ : HeurParams).use_bfs = true →
       0 < (⟨true, 1, 0, 0⟩ : HeurParams).cost_per_cell →
       (((fun _ _ _ => (2:ℤ)) 1 2 3 = 0) ↔ ((1:ℤ), (2:ℤ), (3:ℤ)) = ((0:ℤ), (0:ℤ), (0:ℤ))) →
       ((getEndEffectorHeuristic ⟨true, 1, 0, 0⟩ (fun _ _ _ => 2) (0, 0, 0) 1 2 3 = 0) ↔
         ((1:ℤ), (2:ℤ), (3:ℤ)) = ((0:ℤ), (0:ℤ), (0:ℤ))))) :=
  ⟨by decide,
   C8_heuristic_properties ⟨true, 1, 0, 0⟩ (fun _ _ _ => 2) (0, 0, 0) 1 2 3
     (by decide) (le_refl 0) (le_refl 0) (by decide)⟩
